import Mathlib

/-!
Verification development for the uTP (Micro Transport Protocol) socket core
(`src/socket.rs`).  The socket state machine, reorder buffer, send window and
LEDBAT delay controller are shallowly embedded as executable Lean functions on
a state record.  Machine integers are modelled as `Nat`/`Int` with explicit
wrap-around (`% 2^16`, `% 2^32`, `% 2^64`) at the points where the Rust code
performs release-mode wrapping arithmetic.  The wall clock
(`now_microseconds`), the randomly drawn numbers, and the results of the two
floating-point expressions in the congestion controller are oracle parameters
that theorems quantify over.
-/

namespace Utp

/-! ### Constants (src/socket.rs lines 14-24) -/

def BUF_SIZE : Nat := 1500
def ALLOWED_INCREASE : Nat := 1
def TARGET : Int := 100000
def MSS : Nat := 1400
def MIN_CWND : Nat := 2
def INIT_CWND : Nat := 2
def INITIAL_CONGESTION_TIMEOUT : Nat := 1000
def MIN_CONGESTION_TIMEOUT : Nat := 500
def MAX_CONGESTION_TIMEOUT : Nat := 60000
def BASE_HISTORY : Nat := 10

/-- Modelled from the spec: the fixed packet header of the codec
(src/packet.rs is not under src/) is a 20-byte header: version+type byte,
extension byte, 16-bit connection id, three 32-bit fields, 16-bit seq_nr and
16-bit ack_nr. -/
def HEADER_SIZE : Nat := 20

def U16_MOD : Nat := 65536
def U32_MOD : Nat := 4294967296
def U64_MOD : Nat := 18446744073709551616

/-! ### Fixed-width helpers -/

/-- Wrapping 16-bit subtraction, as in u16::wrapping_sub. -/
def wsub16 (a b : Nat) : Nat := (a % U16_MOD + U16_MOD - b % U16_MOD) % U16_MOD

/-- Wrapping 32-bit subtraction (release-mode u32 subtraction). -/
def wsub32 (a b : Nat) : Nat := (a % U32_MOD + U32_MOD - b % U32_MOD) % U32_MOD

/-- Reinterpret an integer as a 32-bit two-complement value (wrapping i32). -/
def toI32 (x : Int) : Int := (x + 2147483648) % 4294967296 - 2147483648

/-- The value of an i32 expression cast with `as u64` (sign extension then
reinterpretation as unsigned). -/
def castI32toU64 (x : Int) : Nat := ((x % (U64_MOD : Int) + U64_MOD) % (U64_MOD : Int)).toNat

/-! ### Packet model -/

/-- Packet types, as in src/packet.rs (interface fixed by the spec wire
format: Data=0, Fin=1, State=2, Reset=3, Syn=4). -/
inductive PacketType where
  | Data
  | Fin
  | State
  | Reset
  | Syn
deriving DecidableEq, Repr

/-- Socket lifecycle states (src/socket.rs lines 30-39). -/
inductive SocketState where
  | New
  | Connected
  | SynSent
  | FinReceived
  | FinSent
  | ResetReceived
  | Closed
deriving DecidableEq, Repr

/-- A uTP packet as seen through the codec accessors the socket uses.
Fields are the header fields (16- and 32-bit unsigned values held as `Nat`),
the payload bytes, and the optional selective-ack extension bitmap. -/
structure Packet where
  ty : PacketType
  connection_id : Nat
  seq_nr : Nat
  ack_nr : Nat
  wnd_size : Nat
  timestamp_microseconds : Nat
  timestamp_difference_microseconds : Nat
  payload : List Nat
  sack : Option (List Nat)
deriving DecidableEq, Repr

/-- Modelled from the spec: the on-wire byte length of a packet
(`Packet::len` in src/packet.rs, not under src/): the 20-byte fixed header,
plus one extension record of two bytes plus its bitmap when the selective-ack
extension is present, plus the payload. -/
def Packet.len (p : Packet) : Nat :=
  HEADER_SIZE + (match p.sack with | none => 0 | some b => 2 + b.length) + p.payload.length

/-- Modelled from the spec: the bit iterator of the selective-ack extension
(src/packet.rs, not under src/): the bitmap is little-endian, bit j of byte k
is bit index 8k+j, and bit i represents sequence number ack_nr + 2 + i. -/
def extension_bits (bytes : List Nat) : List Bool :=
  (bytes.map (fun b => (List.range 8).map (fun j => b.testBit j))).flatten

/-- Error kinds surfaced by the socket (std::old_io error kinds used in
src/socket.rs, plus the panicking fallthrough arm of handle_packet). -/
inductive UtpError where
  | endOfFile
  | closed
  | connectionFailed
  | connectionReset
  | timedOut
  | unhandledStateType
deriving DecidableEq, Repr

instance {ε α : Type} [DecidableEq ε] [DecidableEq α] : DecidableEq (Except ε α) := fun x y =>
  match x, y with
  | Except.ok a, Except.ok b =>
    if h : a = b then Decidable.isTrue (by rw [h])
    else Decidable.isFalse (fun hx => h (Except.ok.inj hx))
  | Except.error a, Except.error b =>
    if h : a = b then Decidable.isTrue (by rw [h])
    else Decidable.isFalse (fun hx => h (Except.error.inj hx))
  | Except.ok _, Except.error _ => Decidable.isFalse (fun hx => Except.noConfusion hx)
  | Except.error _, Except.ok _ => Decidable.isFalse (fun hx => Except.noConfusion hx)

/-! ### Socket state (struct UtpSocket, src/socket.rs lines 55-102) -/

/-- The socket state record.  The wrapped UDP handle is not part of the model;
datagram transmission is modelled by returning the list of packets sent. -/
structure UtpSocket where
  connected_to : Nat
  sender_connection_id : Nat
  receiver_connection_id : Nat
  seq_nr : Nat
  ack_nr : Nat
  state : SocketState
  incoming_buffer : List Packet
  send_window : List Packet
  unsent_queue : List Packet
  duplicate_ack_count : Nat
  last_acked : Nat
  last_acked_timestamp : Nat
  fin_seq_nr : Nat
  rtt : Int
  rtt_variance : Int
  pending_data : List Nat
  curr_window : Nat
  remote_wnd_size : Nat
  base_delays : List (Int × Int)
  current_delays : List (Int × Int)
  congestion_timeout : Nat
  cwnd : Nat
deriving DecidableEq, Repr

/-- UtpSocket::bind (lines 107-138): the freshly bound socket.  `addr` is the
bound address and `connection_id` the random u16 drawn for the receiver id. -/
def bind_state (addr : Nat) (connection_id : Nat) : UtpSocket :=
  { connected_to := addr
    receiver_connection_id := connection_id % U16_MOD
    sender_connection_id := (connection_id + 1) % U16_MOD
    seq_nr := 1
    ack_nr := 0
    state := SocketState.New
    incoming_buffer := []
    send_window := []
    unsent_queue := []
    duplicate_ack_count := 0
    last_acked := 0
    last_acked_timestamp := 0
    fin_seq_nr := 0
    rtt := 0
    rtt_variance := 0
    pending_data := []
    curr_window := 0
    remote_wnd_size := 0
    base_delays := []
    current_delays := []
    congestion_timeout := INITIAL_CONGESTION_TIMEOUT
    cwnd := INIT_CWND * MSS }

/-! ### Packet construction helpers -/

/-- UtpSocket::prepare_reply (lines 298-310).  `now` is the value returned by
now_microseconds (a u32).  The timestamp difference is the wrapping u32
subtraction of the original timestamp from `now`. -/
def prepare_reply (s : UtpSocket) (original : Packet) (t : PacketType) (now : Nat) : Packet :=
  { ty := t
    connection_id := s.sender_connection_id
    seq_nr := s.seq_nr
    ack_nr := s.ack_nr
    wnd_size := 0
    timestamp_microseconds := now % U32_MOD
    timestamp_difference_microseconds := wsub32 now original.timestamp_microseconds
    payload := []
    sack := none }

/-- The State packet built by UtpSocket::send_fast_resend_request (lines
453-468), stamped with clock value `t`. -/
def fast_resend_packet (s : UtpSocket) (t : Nat) : Packet :=
  { ty := PacketType.State
    connection_id := s.sender_connection_id
    seq_nr := s.seq_nr
    ack_nr := s.ack_nr
    wnd_size := BUF_SIZE
    timestamp_microseconds := t % U32_MOD
    timestamp_difference_microseconds := wsub32 t s.last_acked_timestamp
    payload := []
    sack := none }

/-- UtpSocket::send_fast_resend_request (lines 453-468): three State packets
with identical header fields.  The clock is modelled as returning the same
value `t` for the three consecutive now_microseconds calls of the loop.
No socket field is modified. -/
def send_fast_resend_request (s : UtpSocket) (t : Nat) : UtpSocket × List Packet :=
  (s, [fast_resend_packet s t, fast_resend_packet s t, fast_resend_packet s t])

/-! ### Reorder buffer -/

/-- UtpSocket::advance_incoming_buffer (lines 314-323): remove the head of the
incoming buffer and set ack_nr to its sequence number. -/
def advance_incoming_buffer (s : UtpSocket) : UtpSocket × Option Packet :=
  match s.incoming_buffer with
  | [] => (s, none)
  | packet :: rest =>
    ({ s with incoming_buffer := rest, ack_nr := packet.seq_nr }, some packet)

/-- The while loop of UtpSocket::flush_incoming_buffer (lines 352-374).
Arguments: output capacity, the incoming buffer, ack_nr, pending_data, and the
bytes written so far (the source tracks only the index `idx`; the model keeps
the bytes, whose length is `idx`).  Returns the final buffer, ack_nr,
pending_data and written bytes. -/
def flush_loop (cap : Nat) :
    List Packet → Nat → List Nat → List Nat → List Packet × Nat × List Nat × List Nat
  | [], ack, pending, out => ([], ack, pending, out)
  | pkt :: rest, ack, pending, out =>
    if pkt.seq_nr = ack ∨ pkt.seq_nr = (ack + 1) % U16_MOD then
      let len := min (cap - out.length) pkt.payload.length
      let out2 := out ++ pkt.payload.take len
      if pkt.payload.length = len then
        -- head fully consumed: advance_incoming_buffer, then return if full
        if cap = out2.length then (rest, pkt.seq_nr, pending, out2)
        else flush_loop cap rest pkt.seq_nr pending out2
      else
        -- payload does not fit: the tail goes to pending_data; at this point
        -- the output buffer is provably full and the source then returns
        (pkt :: rest, ack, pending ++ pkt.payload.drop len, out2)
    else (pkt :: rest, ack, pending, out)

/-- UtpSocket::flush_incoming_buffer (lines 330-377).  Returns the number of
bytes reported written and the updated socket.  Mirrors the source: when
pending_data fits the output buffer entirely the function clears it, advances
the head and returns immediately; when it does not fit, the source falls
through to the copy loop with the write index still at zero. -/
def flush_incoming_buffer (s : UtpSocket) (cap : Nat) : Nat × UtpSocket :=
  if s.pending_data = [] then
    let r := flush_loop cap s.incoming_buffer s.ack_nr s.pending_data []
    (r.2.2.2.length,
     { s with incoming_buffer := r.1, ack_nr := r.2.1, pending_data := r.2.2.1 })
  else
    let len := min cap s.pending_data.length
    if len = s.pending_data.length then
      (len, (advance_incoming_buffer { s with pending_data := [] }).1)
    else
      let s1 := { s with pending_data := s.pending_data.drop len }
      let r := flush_loop cap s1.incoming_buffer s1.ack_nr s1.pending_data []
      (r.2.2.2.length,
       { s1 with incoming_buffer := r.1, ack_nr := r.2.1, pending_data := r.2.2.1 })

/-- UtpSocket::insert_into_buffer (lines 813-827): find the first entry whose
sequence number is at least the new packet seq_nr; remove it when it carries
the same sequence number; insert the new packet at that position. -/
def insert_into_buffer (s : UtpSocket) (packet : Packet) : UtpSocket :=
  let i := (s.incoming_buffer.takeWhile (fun pkt => decide (pkt.seq_nr < packet.seq_nr))).length
  let buf :=
    if !s.incoming_buffer.isEmpty && decide (i < s.incoming_buffer.length) &&
        Option.any (fun pkt => pkt.seq_nr == packet.seq_nr) (s.incoming_buffer.get? i) then
      s.incoming_buffer.eraseIdx i
    else s.incoming_buffer
  { s with incoming_buffer := buf.take i ++ packet :: buf.drop i }

/-- UtpSocket::no_pending_data (lines 830-832). -/
def no_pending_data (s : UtpSocket) : Bool :=
  s.pending_data.isEmpty && s.incoming_buffer.isEmpty

/-! ### Delay and congestion controller -/

/-- UtpSocket::update_base_delay (lines 470-486).  `v` is the peer-stamped
send timestamp as i64, `now` the local clock as i64. -/
def update_base_delay (s : UtpSocket) (v : Int) (now : Int) : UtpSocket :=
  let minute : Int := 60 * 10 ^ 6
  match s.base_delays with
  | [] => { s with base_delays := [(now, v)] }
  | (received_at, sent_at) :: rest =>
    if now - received_at > minute then
      let bd := if s.base_delays.length = BASE_HISTORY then s.base_delays.dropLast
                else s.base_delays
      { s with base_delays := (now, v) :: bd }
    else if v < sent_at then { s with base_delays := (now, v) :: rest }
    else s

/-- UtpSocket::update_current_delay (lines 490-499): evict samples older than
one smoothed RTT (rtt * 100 microseconds), then append the new sample. -/
def update_current_delay (s : UtpSocket) (v : Int) (now : Int) : UtpSocket :=
  let rtt : Int := s.rtt * 100
  { s with current_delays :=
      (s.current_delays.dropWhile (fun x => decide (now - x.1 > rtt))) ++ [(now, v)] }

/-- UtpSocket::update_congestion_timeout (lines 501-513).  All inner
arithmetic is wrapping i32 with truncating division; the final clamp is done
in u64 after an `as u64` cast of the i32 sum. -/
def update_congestion_timeout (s : UtpSocket) (current_delay : Int) : UtpSocket :=
  let delta := toI32 (s.rtt - current_delay)
  let rtt_variance := toI32 (s.rtt_variance + (toI32 ((toI32 delta.natAbs) - s.rtt_variance)).tdiv 4)
  let rtt := toI32 (s.rtt + (toI32 (current_delay - s.rtt)).tdiv 8)
  { s with rtt := rtt, rtt_variance := rtt_variance,
           congestion_timeout :=
             min (max (castI32toU64 (toI32 (rtt + rtt_variance * 4))) MIN_CONGESTION_TIMEOUT)
                 MAX_CONGESTION_TIMEOUT }

/-- UtpSocket::build_selective_ack (lines 534-561).  For each buffered packet
with seq_nr above ack_nr (plain u16 comparison), compute diff = seq_nr -
ack_nr - 2 (wrapping u16), append a single zero byte when the byte index is
not below the current length, and set the bit in the LAST byte of the vector
(the source pops and pushes the tail byte).  Finally pad to a multiple of four
bytes. -/
def build_selective_ack (s : UtpSocket) : List Nat :=
  let stashed := s.incoming_buffer.filter (fun pkt => decide (s.ack_nr < pkt.seq_nr))
  let sack := stashed.foldl
    (fun sack pkt =>
      let diff := wsub16 (wsub16 pkt.seq_nr s.ack_nr) 2
      let byte := diff / 8
      let bit := diff % 8
      let sack := if sack.length ≤ byte then sack ++ [0] else sack
      match sack.getLast? with
      | none => sack
      | some bitarray => sack.dropLast ++ [bitarray ||| 2 ^ bit])
    []
  if sack.length % 4 ≠ 0 then
    sack ++ List.replicate ((sack.length / 4 + 1) * 4 - sack.length) 0
  else sack

/-- UtpSocket::resend_lost_packet (lines 563-571): look the sequence number up
in the send window and retransmit the stored packet unchanged (the function
takes no clock input: the stored timestamp is sent again).  No socket field is
modified. -/
def resend_lost_packet (s : UtpSocket) (lost_packet_nr : Nat) : UtpSocket × List Packet :=
  match s.send_window.find? (fun pkt => pkt.seq_nr == lost_packet_nr) with
  | none => (s, [])
  | some packet => (s, [packet])

/-- UtpSocket::advance_send_window (lines 574-584): drop every send-window
entry up to and including the one whose seq_nr equals last_acked, subtracting
their on-wire lengths from curr_window (wrapping u32 subtraction). -/
def advance_send_window (s : UtpSocket) : UtpSocket :=
  match s.send_window.findIdx? (fun pkt => pkt.seq_nr == s.last_acked) with
  | none => s
  | some position =>
    { s with send_window := s.send_window.drop (position + 1),
             curr_window := (s.send_window.take (position + 1)).foldl
               (fun w pkt => wsub32 w pkt.len) s.curr_window }

/-- UtpSocket::update_congestion_window (lines 703-722).  `increment` is the
u32 value of the floating-point expression
`(GAIN * off_target * bytes_newly_acked * MSS / cwnd) as u32`, supplied as an
oracle.  When `cwnd + increment` overflows u32 (checked_add returns None) the
whole update is skipped; otherwise the computed sum is discarded and cwnd is
clamped to at most curr_window + ALLOWED_INCREASE * MSS and at least
MIN_CWND * MSS. -/
def update_congestion_window (s : UtpSocket) (increment : Nat) : UtpSocket :=
  if s.cwnd + increment < U32_MOD then
    let max_allowed_cwnd := (s.curr_window + ALLOWED_INCREASE * MSS) % U32_MOD
    { s with cwnd := max (min s.cwnd max_allowed_cwnd) (MIN_CWND * MSS) }
  else s

/-! ### State-packet handling -/

/-- The indexed for loop over the selective-ack bits in
UtpSocket::handle_state_packet (lines 762-776): a set bit is skipped; a clear
bit whose sequence number lies below the last send-window entry triggers a
retransmission and marks loss; otherwise the loop breaks.  Returns the socket
(unchanged), the retransmitted packets and the loss flag. -/
def sack_bit_loop (s : UtpSocket) (pAck : Nat) : Nat → Bool → List Bool → UtpSocket × List Packet × Bool
  | _, loss, [] => (s, [], loss)
  | idx, loss, b :: rest =>
    if b then sack_bit_loop s pAck (idx + 1) loss rest
    else
      match s.send_window.getLast? with
      | some last =>
        if (pAck + 2 + idx) % U16_MOD < last.seq_nr then
          let r := resend_lost_packet s ((pAck + 2 + idx) % U16_MOD)
          let r2 := sack_bit_loop r.1 pAck (idx + 1) true rest
          (r2.1, r.2 ++ r2.2.1, r2.2.2)
        else (s, [], loss)
      | none => (s, [], loss)

/-- The selective-ack extension pass of UtpSocket::handle_state_packet (lines
752-780): when three or more bits are set, retransmit the implicitly missing
packet at ack_nr + 1 and mark loss; then run the indexed bit loop. -/
def process_sack_extension (s : UtpSocket) (p : Packet) (loss : Bool) :
    UtpSocket × List Packet × Bool :=
  match p.sack with
  | none => (s, [], loss)
  | some bytes =>
    let bits := extension_bits bytes
    let r1 :=
      if 3 ≤ (bits.filter (fun b => b)).length then
        let r := resend_lost_packet s ((p.ack_nr + 1) % U16_MOD)
        (r.1, r.2, true)
      else (s, ([] : List Packet), loss)
    let r2 := sack_bit_loop r1.1 p.ack_nr 0 r1.2.2 bits
    (r2.1, r1.2.1 ++ r2.2.1, r2.2.2)

/-- The triple-duplicate-ack retransmission loop of
UtpSocket::handle_state_packet (lines 793-799): resend every send-window
packet whose seq_nr is above the acknowledged one (plain u16 comparison). -/
def resend_all_unacked (s : UtpSocket) (pAck : Nat) : UtpSocket × List Packet :=
  s.send_window.foldl
    (fun acc pkt =>
      if pkt.seq_nr ≤ pAck then acc
      else
        let r := resend_lost_packet acc.1 pkt.seq_nr
        (r.1, acc.2 ++ r.2))
    (s, [])

/-- The duplicate-acknowledgment bookkeeping at the top of
UtpSocket::handle_state_packet (lines 725-731). -/
def hsp_dup_update (s : UtpSocket) (p : Packet) (now : Nat) : UtpSocket :=
  if p.ack_nr = s.last_acked then
    { s with duplicate_ack_count := (s.duplicate_ack_count + 1) % U32_MOD }
  else
    { s with last_acked := p.ack_nr, last_acked_timestamp := now % U32_MOD,
             duplicate_ack_count := 1 }

/-- The controller prefix of UtpSocket::handle_state_packet (lines 725-746):
duplicate-ack bookkeeping, base- and current-delay updates, congestion window
update and congestion timeout update, in source order. -/
def hsp_pre (s : UtpSocket) (p : Packet) (now : Nat)
    (off_target_i64 : Int) (cwnd_increment : Nat) : UtpSocket :=
  update_congestion_timeout
    (update_congestion_window
      (update_current_delay
        (update_base_delay (hsp_dup_update s p now) (p.timestamp_microseconds : Int) (now : Int))
        (p.timestamp_difference_microseconds : Int) (now : Int))
      cwnd_increment)
    (toI32 ((TARGET - off_target_i64).tdiv 1000))

/-- UtpSocket::handle_state_packet (lines 724-803).  `now` is the
now_microseconds value (u32; used as i64 for the delay updates),
`off_target_i64` is the oracle value of the floating-point `off_target as
i64`, and `cwnd_increment` the oracle value of the floating-point congestion
window increment cast to u32.  Returns the updated socket and the packets
retransmitted by loss processing. -/
def handle_state_packet (s : UtpSocket) (p : Packet) (now : Nat)
    (off_target_i64 : Int) (cwnd_increment : Nat) : UtpSocket × List Packet :=
  let s5 := hsp_pre s p now off_target_i64 cwnd_increment
  let lossInit := !s5.send_window.isEmpty && s5.duplicate_ack_count == 3
  let r := process_sack_extension s5 p lossInit
  let s7 := if r.2.2 then { r.1 with cwnd := max (r.1.cwnd / 2) (MIN_CWND * MSS) } else r.1
  let r2 := if !s7.send_window.isEmpty && s7.duplicate_ack_count == 3 then
              resend_all_unacked s7 p.ack_nr
            else (s7, [])
  (advance_send_window r2.1, r.2.1 ++ r2.2)

/-- UtpSocket::handle_data_packet (lines 673-689): prepare a State reply; when
the packet leaves a gap above ack_nr (wrapping difference above one) attach
the selective-ack bitmap when it is non-empty. -/
def handle_data_packet (s : UtpSocket) (p : Packet) (now : Nat) : Option Packet :=
  let reply := prepare_reply s p PacketType.State now
  if 1 < wsub16 p.seq_nr s.ack_nr then
    let sackPayload := build_selective_ack s
    if 0 < sackPayload.length then some { reply with sack := some sackPayload }
    else some reply
  else some reply

/-! ### The packet dispatcher -/

/-- The guarded acknowledgment advance at the top of UtpSocket::handle_packet
(lines 593-595): ack_nr moves to p.seq_nr exactly when the packet strictly
follows the previous one under wrapping u16 subtraction. -/
def ack_advance (s : UtpSocket) (p : Packet) : UtpSocket :=
  if wsub16 p.seq_nr s.ack_nr = 1 then { s with ack_nr := p.seq_nr } else s

/-- The match over (state, packet type) of UtpSocket::handle_packet (lines
607-670), after the connection-id gate and the remote window refresh.  `src`
is the datagram source address, `rnd` the random u16 drawn for the acceptor
sequence number.  Returns the socket, the packets transmitted directly by the
handler (loss retransmissions), and the reply or error. -/
def handle_packet_dispatch (s : UtpSocket) (p : Packet) (src : Nat) (now : Nat)
    (rnd : Nat) (off_target_i64 : Int) (cwnd_increment : Nat) :
    UtpSocket × List Packet × Except UtpError (Option Packet) :=
  match s.state, p.ty with
  | SocketState.New, PacketType.Syn =>
    let s2 := { s with connected_to := src, ack_nr := p.seq_nr, seq_nr := rnd % U16_MOD,
                       receiver_connection_id := (p.connection_id + 1) % U16_MOD,
                       sender_connection_id := p.connection_id,
                       state := SocketState.Connected }
    (s2, [], Except.ok (some (prepare_reply s2 p PacketType.State now)))
  | SocketState.SynSent, PacketType.State =>
    ({ s with ack_nr := p.seq_nr, seq_nr := (s.seq_nr + 1) % U16_MOD,
              state := SocketState.Connected, last_acked := p.ack_nr,
              last_acked_timestamp := now % U32_MOD },
     [], Except.ok none)
  | SocketState.SynSent, _ => (s, [], Except.error UtpError.connectionFailed)
  | SocketState.Connected, PacketType.Syn => (s, [], Except.ok none)
  | SocketState.Connected, PacketType.Data =>
    (s, [], Except.ok (handle_data_packet s p now))
  | SocketState.Connected, PacketType.State =>
    let r := handle_state_packet s p now off_target_i64 cwnd_increment
    (r.1, r.2, Except.ok none)
  | SocketState.Connected, PacketType.Fin =>
    let s2 := { s with state := SocketState.FinReceived, fin_seq_nr := p.seq_nr }
    if no_pending_data s2 ∧ s2.ack_nr = s2.fin_seq_nr then
      let s3 := { s2 with state := SocketState.Closed }
      (s3, [], Except.ok (some (prepare_reply s3 p PacketType.State now)))
    else (s2, [], Except.ok none)
  | SocketState.FinSent, PacketType.State =>
    if p.ack_nr = s.seq_nr then
      ({ s with state := SocketState.Closed }, [], Except.ok none)
    else (s, [], Except.ok none)
  | _, PacketType.Reset =>
    ({ s with state := SocketState.ResetReceived }, [], Except.error UtpError.connectionReset)
  | _, _ => (s, [], Except.error UtpError.unhandledStateType)

/-- UtpSocket::handle_packet (lines 589-671): advance ack_nr when the packet
strictly follows, reply Reset when the connection id matches neither
identifier and the packet is not a Syn in state New, otherwise refresh the
remote window size and dispatch on (state, packet type). -/
def handle_packet (s : UtpSocket) (p : Packet) (src : Nat) (now : Nat)
    (rnd : Nat) (off_target_i64 : Int) (cwnd_increment : Nat) :
    UtpSocket × List Packet × Except UtpError (Option Packet) :=
  let s1 := ack_advance s p
  if ¬(s1.state = SocketState.New ∧ p.ty = PacketType.Syn) ∧
      ¬(p.connection_id = s1.sender_connection_id ∨
        p.connection_id = s1.receiver_connection_id) then
    (s1, [], Except.ok (some (prepare_reply s1 p PacketType.Reset now)))
  else
    handle_packet_dispatch { s1 with remote_wnd_size := p.wnd_size } p src now rnd
      off_target_i64 cwnd_increment

/-- The TimedOut arm of UtpSocket::recv (lines 265-272): double the congestion
timeout (wrapping u64 multiplication), shrink cwnd to one MSS, send the fast
resend request, and return Ok with zero bytes read from the connected peer.
`t` is the clock oracle for the fast-resend timestamps. -/
def recv_timeout_step (s : UtpSocket) (t : Nat) :
    UtpSocket × List Packet × Except UtpError (Nat × Nat) :=
  let s1 := { s with congestion_timeout := s.congestion_timeout * 2 % U64_MOD, cwnd := MSS }
  let r := send_fast_resend_request s1 t
  (r.1, r.2, Except.ok (0, s.connected_to))

/-! ### Concrete states and packets used by closed theorems

The acceptor-side connected state `conn_state` is built by running the actual
accept transition (`handle_packet` on a Syn) on a freshly bound socket, so it
is reachable by construction. -/

/-- A well-formed Syn packet as the initiator sends it (seq_nr 1). -/
def syn_packet : Packet :=
  { ty := PacketType.Syn, connection_id := 7, seq_nr := 1, ack_nr := 0, wnd_size := 1500,
    timestamp_microseconds := 0, timestamp_difference_microseconds := 0,
    payload := [], sack := none }

/-- A Syn packet carrying sequence number 100. -/
def syn_packet_100 : Packet :=
  { syn_packet with seq_nr := 100 }

/-- The acceptor state after bind (receiver id 10) and handling `syn_packet`:
Connected, ack_nr 1, sender id 7, receiver id 8, seq_nr 42, congestion
timeout 1000, cwnd 2800. -/
def conn_state : UtpSocket :=
  (handle_packet (bind_state 0 10) syn_packet 99 0 42 0 0).1

/-- A State packet whose connection id 500 matches neither identifier of
`conn_state` and whose seq_nr 2 strictly follows its ack_nr 1. -/
def wrong_id_packet : Packet :=
  { ty := PacketType.State, connection_id := 500, seq_nr := 2, ack_nr := 0, wnd_size := 1500,
    timestamp_microseconds := 0, timestamp_difference_microseconds := 0,
    payload := [], sack := none }

/-- An ordinary State packet from the peer of `conn_state`. -/
def state_packet : Packet :=
  { ty := PacketType.State, connection_id := 7, seq_nr := 5, ack_nr := 33, wnd_size := 1500,
    timestamp_microseconds := 0, timestamp_difference_microseconds := 0,
    payload := [], sack := none }

/-- A Data packet with sequence number 6 and a one-byte payload. -/
def data_packet_6 : Packet :=
  { ty := PacketType.Data, connection_id := 7, seq_nr := 6, ack_nr := 0, wnd_size := 1500,
    timestamp_microseconds := 0, timestamp_difference_microseconds := 0,
    payload := [1], sack := none }

/-- A Data packet with sequence number 7 and a one-byte payload. -/
def data_packet_7 : Packet :=
  { data_packet_6 with seq_nr := 7, payload := [2] }

/-- A Data packet with sequence number 20 (a sparse gap above ack_nr 1). -/
def data_packet_20 : Packet :=
  { data_packet_6 with seq_nr := 20, payload := [5] }

/-- A connected state in which the head packet (seq_nr 6) was partially
consumed on an earlier flush: its tail byte sits in pending_data, ack_nr is
still 5, and packets 6 and 7 are buffered. -/
def flush_cex_state : UtpSocket :=
  { conn_state with ack_nr := 5, pending_data := [9],
                    incoming_buffer := [data_packet_6, data_packet_7] }

/-- A connected state whose reorder buffer holds packet 20 with ack_nr 1. -/
def sparse_gap_state : UtpSocket :=
  { conn_state with incoming_buffer := [data_packet_20] }

/-- A buffered Data packet with seq_nr 5 and send-timestamp 100. -/
def dup_packet_old : Packet :=
  { data_packet_6 with seq_nr := 5, timestamp_microseconds := 100 }

/-- A duplicate of `dup_packet_old` carrying the SMALLER send-timestamp 50. -/
def dup_packet_new : Packet :=
  { data_packet_6 with seq_nr := 5, timestamp_microseconds := 50 }

/-- A connected state whose reorder buffer holds `dup_packet_old`. -/
def dup_state : UtpSocket :=
  { conn_state with incoming_buffer := [dup_packet_old] }

/-- A Data packet stored in the send window, stamped with timestamp 777 when
it was first transmitted. -/
def window_packet : Packet :=
  { ty := PacketType.Data, connection_id := 7, seq_nr := 33, ack_nr := 1, wnd_size := 1500,
    timestamp_microseconds := 777, timestamp_difference_microseconds := 0,
    payload := [1, 2], sack := none }

/-- A connected state with `window_packet` in flight. -/
def window_state : UtpSocket :=
  { conn_state with send_window := [window_packet], curr_window := window_packet.len }

/-- One application of the receive-timeout recovery step (clock at 0). -/
def timeout_once (s : UtpSocket) : UtpSocket := (recv_timeout_step s 0).1

/-- The acceptor state after six consecutive receive timeouts. -/
def after_six_timeouts : UtpSocket :=
  timeout_once (timeout_once (timeout_once (timeout_once (timeout_once (timeout_once conn_state)))))

/-! ### Projection lemmas -/

@[simp]
lemma resend_lost_packet_fst (s : UtpSocket) (n : Nat) : (resend_lost_packet s n).1 = s := by
  unfold resend_lost_packet
  cases s.send_window.find? (fun pkt => pkt.seq_nr == n) <;> rfl

@[simp]
lemma sack_bit_loop_fst (s : UtpSocket) (pAck : Nat) :
    ∀ (bits : List Bool) (idx : Nat) (loss : Bool), (sack_bit_loop s pAck idx loss bits).1 = s := by
  intro bits
  induction bits with
  | nil => intro idx loss; rfl
  | cons b rest ih =>
    intro idx loss
    unfold sack_bit_loop
    split
    · exact ih (idx + 1) loss
    · cases h : s.send_window.getLast? with
      | none => rfl
      | some last =>
        simp only [h]
        split
        · simp [ih]
        · rfl

@[simp]
lemma process_sack_extension_fst (s : UtpSocket) (p : Packet) (loss : Bool) :
    (process_sack_extension s p loss).1 = s := by
  unfold process_sack_extension
  cases p.sack with
  | none => rfl
  | some bytes =>
    simp only
    split <;> simp

@[simp]
lemma resend_all_unacked_fst (s : UtpSocket) (a : Nat) : (resend_all_unacked s a).1 = s := by
  unfold resend_all_unacked
  suffices h : ∀ (l : List Packet) (out : List Packet),
      (l.foldl (fun acc pkt =>
        if pkt.seq_nr ≤ a then acc
        else ((resend_lost_packet acc.1 pkt.seq_nr).1,
              acc.2 ++ (resend_lost_packet acc.1 pkt.seq_nr).2)) (s, out)).1 = s by
    exact h s.send_window []
  intro l
  induction l with
  | nil => intro out; rfl
  | cons q t ih =>
    intro out
    simp only [List.foldl_cons]
    split
    · exact ih out
    · rw [resend_lost_packet_fst]
      exact ih _

@[simp]
lemma advance_send_window_ack_nr (s : UtpSocket) : (advance_send_window s).ack_nr = s.ack_nr := by
  unfold advance_send_window
  cases s.send_window.findIdx? (fun pkt => pkt.seq_nr == s.last_acked) <;> rfl

@[simp]
lemma advance_send_window_cwnd (s : UtpSocket) : (advance_send_window s).cwnd = s.cwnd := by
  unfold advance_send_window
  cases s.send_window.findIdx? (fun pkt => pkt.seq_nr == s.last_acked) <;> rfl

@[simp]
lemma update_base_delay_ack_nr (s : UtpSocket) (v now : Int) :
    (update_base_delay s v now).ack_nr = s.ack_nr := by
  unfold update_base_delay
  cases s.base_delays with
  | nil => rfl
  | cons hd rest => obtain ⟨a, b⟩ := hd; dsimp only; split <;> [rfl; skip]; split <;> rfl

@[simp]
lemma update_base_delay_cwnd (s : UtpSocket) (v now : Int) :
    (update_base_delay s v now).cwnd = s.cwnd := by
  unfold update_base_delay
  cases s.base_delays with
  | nil => rfl
  | cons hd rest => obtain ⟨a, b⟩ := hd; dsimp only; split <;> [rfl; skip]; split <;> rfl

@[simp]
lemma update_current_delay_ack_nr (s : UtpSocket) (v now : Int) :
    (update_current_delay s v now).ack_nr = s.ack_nr := rfl

@[simp]
lemma update_current_delay_cwnd (s : UtpSocket) (v now : Int) :
    (update_current_delay s v now).cwnd = s.cwnd := rfl

@[simp]
lemma update_congestion_timeout_ack_nr (s : UtpSocket) (d : Int) :
    (update_congestion_timeout s d).ack_nr = s.ack_nr := rfl

@[simp]
lemma update_congestion_timeout_cwnd (s : UtpSocket) (d : Int) :
    (update_congestion_timeout s d).cwnd = s.cwnd := rfl

@[simp]
lemma update_congestion_window_ack_nr (s : UtpSocket) (inc : Nat) :
    (update_congestion_window s inc).ack_nr = s.ack_nr := by
  unfold update_congestion_window
  split <;> rfl

lemma update_congestion_window_cwnd_ge (s : UtpSocket) (inc : Nat)
    (h : MIN_CWND * MSS ≤ s.cwnd) :
    MIN_CWND * MSS ≤ (update_congestion_window s inc).cwnd := by
  unfold update_congestion_window
  split
  · exact Nat.le_max_right _ _
  · exact h

@[simp]
lemma hsp_dup_update_ack_nr (s : UtpSocket) (p : Packet) (now : Nat) :
    (hsp_dup_update s p now).ack_nr = s.ack_nr := by
  unfold hsp_dup_update
  split <;> rfl

@[simp]
lemma hsp_dup_update_cwnd (s : UtpSocket) (p : Packet) (now : Nat) :
    (hsp_dup_update s p now).cwnd = s.cwnd := by
  unfold hsp_dup_update
  split <;> rfl

@[simp]
lemma hsp_pre_ack_nr (s : UtpSocket) (p : Packet) (now : Nat) (offT : Int) (inc : Nat) :
    (hsp_pre s p now offT inc).ack_nr = s.ack_nr := by
  unfold hsp_pre
  simp

lemma hsp_pre_cwnd_ge (s : UtpSocket) (p : Packet) (now : Nat) (offT : Int) (inc : Nat)
    (h : MIN_CWND * MSS ≤ s.cwnd) : MIN_CWND * MSS ≤ (hsp_pre s p now offT inc).cwnd := by
  unfold hsp_pre
  rw [update_congestion_timeout_cwnd]
  apply update_congestion_window_cwnd_ge
  rw [update_current_delay_cwnd, update_base_delay_cwnd, hsp_dup_update_cwnd]
  exact h

lemma handle_state_packet_ack_nr (s : UtpSocket) (p : Packet) (now : Nat)
    (offT : Int) (inc : Nat) :
    (handle_state_packet s p now offT inc).1.ack_nr = s.ack_nr := by
  simp only [handle_state_packet]
  rw [advance_send_window_ack_nr, apply_ite Prod.fst, resend_all_unacked_fst]
  dsimp only
  rw [ite_self, apply_ite UtpSocket.ack_nr]
  simp [process_sack_extension_fst, hsp_pre_ack_nr]

lemma handle_state_packet_cwnd_ge (s : UtpSocket) (p : Packet) (now : Nat)
    (offT : Int) (inc : Nat) (h : MIN_CWND * MSS ≤ s.cwnd) :
    MIN_CWND * MSS ≤ (handle_state_packet s p now offT inc).1.cwnd := by
  simp only [handle_state_packet]
  rw [advance_send_window_cwnd, apply_ite Prod.fst, resend_all_unacked_fst]
  dsimp only
  rw [ite_self, apply_ite UtpSocket.cwnd]
  split
  · exact Nat.le_max_right _ _
  · rw [process_sack_extension_fst]
    exact hsp_pre_cwnd_ge s p now offT inc h

@[simp]
lemma ack_advance_state (s : UtpSocket) (p : Packet) : (ack_advance s p).state = s.state := by
  unfold ack_advance
  split <;> rfl

@[simp]
lemma ack_advance_sender (s : UtpSocket) (p : Packet) :
    (ack_advance s p).sender_connection_id = s.sender_connection_id := by
  unfold ack_advance
  split <;> rfl

@[simp]
lemma ack_advance_receiver (s : UtpSocket) (p : Packet) :
    (ack_advance s p).receiver_connection_id = s.receiver_connection_id := by
  unfold ack_advance
  split <;> rfl

lemma ack_advance_ack (s : UtpSocket) (p : Packet) :
    (ack_advance s p).ack_nr = if wsub16 p.seq_nr s.ack_nr = 1 then p.seq_nr else s.ack_nr := by
  unfold ack_advance
  split <;> rfl

lemma handle_packet_dispatch_ack_nr (s : UtpSocket) (p : Packet) (src now rnd : Nat)
    (offT : Int) (inc : Nat)
    (h1 : ¬(s.state = SocketState.New ∧ p.ty = PacketType.Syn))
    (h2 : ¬(s.state = SocketState.SynSent ∧ p.ty = PacketType.State)) :
    (handle_packet_dispatch s p src now rnd offT inc).1.ack_nr = s.ack_nr := by
  unfold handle_packet_dispatch
  cases hs : s.state <;> cases hp : p.ty <;>
    simp_all [handle_state_packet_ack_nr, apply_ite Prod.fst, apply_ite UtpSocket.ack_nr]

lemma flush_loop_post (cap : Nat) :
    ∀ (l : List Packet) (ack : Nat) (pending out : List Nat), out.length ≤ cap →
      (flush_loop cap l ack pending out).2.2.2.length = cap ∨
      (flush_loop cap l ack pending out).1 = [] ∨
      ∃ hd tl, (flush_loop cap l ack pending out).1 = hd :: tl ∧
        hd.seq_nr ≠ (flush_loop cap l ack pending out).2.1 ∧
        hd.seq_nr ≠ ((flush_loop cap l ack pending out).2.1 + 1) % U16_MOD := by
  intro l
  induction l with
  | nil =>
    intro ack pending out hout
    right; left; rfl
  | cons pkt rest ih =>
    intro ack pending out hout
    simp only [flush_loop]
    split
    · by_cases hfit : pkt.payload.length = min (cap - out.length) pkt.payload.length
      · rw [if_pos hfit]
        by_cases hfull :
            cap = (out ++ pkt.payload.take (min (cap - out.length) pkt.payload.length)).length
        · rw [if_pos hfull]
          left
          exact hfull.symm
        · rw [if_neg hfull]
          apply ih
          have htake : (pkt.payload.take (min (cap - out.length) pkt.payload.length)).length =
              min (cap - out.length) pkt.payload.length := by
            rw [List.length_take]
            omega
          rw [List.length_append, htake]
          omega
      · rw [if_neg hfit]
        left
        have hmin : min (cap - out.length) pkt.payload.length = cap - out.length := by omega
        simp only [List.length_append, List.length_take]
        omega
    · rename_i hcontig
      right; right
      exact ⟨pkt, rest, rfl, fun hx => hcontig (Or.inl hx), fun hx => hcontig (Or.inr hx)⟩

lemma advance_incoming_buffer_head (t : UtpSocket) (pkt : Packet) (rest : List Packet)
    (h : t.incoming_buffer = pkt :: rest) :
    (advance_incoming_buffer t).1.ack_nr = pkt.seq_nr := by
  unfold advance_incoming_buffer
  rw [h]

/-! ### Claim theorems -/

/-- C1, counterexample: the claim that MIN_CWND * MSS ≤ cwnd holds after
every operation, in particular after a receive that times out, is false:
on the reachable connected acceptor state the timeout recovery step sets cwnd
to MSS = 1400, strictly below MIN_CWND * MSS = 2800. -/
theorem claim_C1_counterexample :
    (recv_timeout_step conn_state 0).1.cwnd = 1400 ∧
    ¬ MIN_CWND * MSS ≤ (recv_timeout_step conn_state 0).1.cwnd := by
  decide

/-- C1 (amended): the lower bound MIN_CWND * MSS ≤ cwnd is preserved by the
whole state-packet handler (the congestion-window update, including the
overflow-skipping branch, and the loss-triggered halving), but the
receive-timeout path sets cwnd to exactly one MSS = 1400, which is below
MIN_CWND * MSS = 2800, so the invariant does not hold after a timed-out
receive. -/
theorem claim_C1_amended (s : UtpSocket) (p : Packet) (now : Nat) (offT : Int) (inc : Nat) :
    (MIN_CWND * MSS ≤ s.cwnd →
      MIN_CWND * MSS ≤ (handle_state_packet s p now offT inc).1.cwnd) ∧
    (recv_timeout_step s now).1.cwnd = MSS ∧ MSS < MIN_CWND * MSS := by
  refine ⟨fun h => handle_state_packet_cwnd_ge s p now offT inc h, rfl, by decide⟩

/-- C1, witness for the amended theorem at the reachable connected state. -/
theorem claim_C1_witness :
    MIN_CWND * MSS ≤ (handle_state_packet conn_state state_packet 0 0 0).1.cwnd ∧
    (recv_timeout_step conn_state 0).1.cwnd = MSS := by
  have h := claim_C1_amended conn_state state_packet 0 0 0
  exact ⟨h.1 (by decide), h.2.1⟩

/-- C2, counterexample: starting from the initial congestion timeout 1000 on
the reachable connected acceptor state, six consecutive receive timeouts
double the timeout each time without clamping, reaching 64000 > 60000. -/
theorem claim_C2_counterexample :
    after_six_timeouts.congestion_timeout = 64000 ∧
    ¬ after_six_timeouts.congestion_timeout ≤ MAX_CONGESTION_TIMEOUT := by
  decide

/-- C2 (amended): the RTT-based update always lands in
[MIN_CONGESTION_TIMEOUT, MAX_CONGESTION_TIMEOUT] = [500, 60000]; the
receive-timeout doubling path preserves only the lower bound: from a value in
[500, 60000] it produces a value in [1000, 120000] and can therefore exceed
60000. -/
theorem claim_C2_amended (s : UtpSocket) (d : Int) (t : Nat) :
    (MIN_CONGESTION_TIMEOUT ≤ (update_congestion_timeout s d).congestion_timeout ∧
     (update_congestion_timeout s d).congestion_timeout ≤ MAX_CONGESTION_TIMEOUT) ∧
    (MIN_CONGESTION_TIMEOUT ≤ s.congestion_timeout →
     s.congestion_timeout ≤ MAX_CONGESTION_TIMEOUT →
      MIN_CONGESTION_TIMEOUT ≤ (recv_timeout_step s t).1.congestion_timeout ∧
      (recv_timeout_step s t).1.congestion_timeout ≤ 2 * MAX_CONGESTION_TIMEOUT) := by
  constructor
  · constructor
    · exact le_min (le_max_right _ _) (by decide)
    · exact min_le_right _ _
  · intro h1 h2
    have h5 : 500 ≤ s.congestion_timeout := h1
    have h6 : s.congestion_timeout ≤ 60000 := h2
    have hct : (recv_timeout_step s t).1.congestion_timeout =
        s.congestion_timeout * 2 % U64_MOD := rfl
    have hlt : s.congestion_timeout * 2 < U64_MOD := by
      show s.congestion_timeout * 2 < 18446744073709551616
      omega
    rw [hct, Nat.mod_eq_of_lt hlt]
    constructor
    · show 500 ≤ s.congestion_timeout * 2
      omega
    · show s.congestion_timeout * 2 ≤ 2 * 60000
      omega

/-- C2, witness for the amended theorem at the reachable connected state. -/
theorem claim_C2_witness :
    (MIN_CONGESTION_TIMEOUT ≤ (update_congestion_timeout conn_state 80).congestion_timeout ∧
     (update_congestion_timeout conn_state 80).congestion_timeout ≤ MAX_CONGESTION_TIMEOUT) ∧
    (MIN_CONGESTION_TIMEOUT ≤ (recv_timeout_step conn_state 0).1.congestion_timeout ∧
     (recv_timeout_step conn_state 0).1.congestion_timeout ≤ 2 * MAX_CONGESTION_TIMEOUT) := by
  have h := claim_C2_amended conn_state 80 0
  exact ⟨h.1, h.2 (by decide) (by decide)⟩

/-- C8: when the computed congestion-window increment would overflow u32 the
update is skipped entirely; otherwise cwnd becomes exactly
max (min cwnd (curr_window + ALLOWED_INCREASE * MSS)) (MIN_CWND * MSS) and
the computed increment is never added.  The hypotheses state that the
increment is a u32 value and that curr_window + ALLOWED_INCREASE * MSS does
not itself wrap in u32. -/
theorem claim_C8 (s : UtpSocket) (inc : Nat) (_hinc : inc < U32_MOD)
    (hcw : s.curr_window + ALLOWED_INCREASE * MSS < U32_MOD) :
    (s.cwnd + inc < U32_MOD →
      update_congestion_window s inc =
        { s with cwnd := max (min s.cwnd (s.curr_window + ALLOWED_INCREASE * MSS))
                             (MIN_CWND * MSS) }) ∧
    (U32_MOD ≤ s.cwnd + inc → update_congestion_window s inc = s) := by
  constructor
  · intro h
    unfold update_congestion_window
    rw [if_pos h, Nat.mod_eq_of_lt hcw]
  · intro h
    unfold update_congestion_window
    rw [if_neg (by omega)]

/-- C8, witness: both branches of the theorem at concrete inputs. -/
theorem claim_C8_witness :
    update_congestion_window conn_state 0 =
      { conn_state with
          cwnd := max (min conn_state.cwnd (conn_state.curr_window + ALLOWED_INCREASE * MSS))
                      (MIN_CWND * MSS) } ∧
    update_congestion_window { conn_state with cwnd := U32_MOD - 1 } 1 =
      { conn_state with cwnd := U32_MOD - 1 } := by
  constructor
  · exact (claim_C8 conn_state 0 (by decide) (by decide)).1 (by decide)
  · exact (claim_C8 { conn_state with cwnd := U32_MOD - 1 } 1 (by decide) (by decide)).2
      (by decide)

/-- C9: on a timed-out receive of a non-New socket, the congestion timeout is
doubled, cwnd becomes exactly one MSS, exactly three identical State packets
carrying the current ack_nr, the current seq_nr and the fresh clock value are
transmitted, and the call returns Ok with zero bytes rather than an error. -/
theorem claim_C9 (s : UtpSocket) (t : Nat) (_h : s.state ≠ SocketState.New) :
    recv_timeout_step s t =
      ({ s with congestion_timeout := s.congestion_timeout * 2 % U64_MOD, cwnd := MSS },
       [fast_resend_packet s t, fast_resend_packet s t, fast_resend_packet s t],
       Except.ok (0, s.connected_to)) ∧
    (fast_resend_packet s t).ty = PacketType.State ∧
    (fast_resend_packet s t).ack_nr = s.ack_nr ∧
    (fast_resend_packet s t).seq_nr = s.seq_nr ∧
    (fast_resend_packet s t).timestamp_microseconds = t % U32_MOD ∧
    MSS = 1400 := by
  exact ⟨rfl, rfl, rfl, rfl, rfl, rfl⟩

/-- C9, witness at the reachable connected state with clock value 5. -/
theorem claim_C9_witness :
    conn_state.state ≠ SocketState.New ∧
    recv_timeout_step conn_state 5 =
      ({ conn_state with
           congestion_timeout := conn_state.congestion_timeout * 2 % U64_MOD, cwnd := MSS },
       [fast_resend_packet conn_state 5, fast_resend_packet conn_state 5,
        fast_resend_packet conn_state 5],
       Except.ok (0, conn_state.connected_to)) := by
  exact ⟨by decide, (claim_C9 conn_state 5 (by decide)).1⟩

/-- C10: resend_lost_packet leaves the socket unchanged; when the send window
holds a packet with the requested sequence number, exactly that stored packet
(with its stored timestamp, since the function takes no clock input) is
retransmitted, and when no such packet exists nothing is transmitted. -/
theorem claim_C10 (s : UtpSocket) (n : Nat) :
    (resend_lost_packet s n).1 = s ∧
    ((∀ q ∈ s.send_window, q.seq_nr ≠ n) → (resend_lost_packet s n).2 = []) ∧
    (∀ q, s.send_window.find? (fun pkt => pkt.seq_nr == n) = some q →
      (resend_lost_packet s n).2 = [q] ∧ q ∈ s.send_window ∧ q.seq_nr = n) := by
  refine ⟨resend_lost_packet_fst s n, ?_, ?_⟩
  · intro hnone
    unfold resend_lost_packet
    cases hfind : s.send_window.find? (fun pkt => pkt.seq_nr == n) with
    | none => rfl
    | some q =>
      have hq : q.seq_nr = n := by
        have := List.find?_some hfind
        simpa using this
      exact absurd hq (hnone q (List.mem_of_find?_eq_some hfind))
  · intro q hfind
    refine ⟨?_, List.mem_of_find?_eq_some hfind, by simpa using List.find?_some hfind⟩
    unfold resend_lost_packet
    rw [hfind]

/-- C10, witness: the stored packet with seq_nr 33 and timestamp 777 is
retransmitted unchanged, the socket is unchanged, and an absent sequence
number transmits nothing. -/
theorem claim_C10_witness :
    (resend_lost_packet window_state 33).1 = window_state ∧
    (resend_lost_packet window_state 33).2 = [window_packet] ∧
    (resend_lost_packet window_state 99).2 = [] := by
  refine ⟨(claim_C10 window_state 33).1, ?_, ?_⟩
  · exact ((claim_C10 window_state 33).2.2 window_packet (by decide)).1
  · exact (claim_C10 window_state 99).2.1 (by decide)

/-- C3, counterexample: a State packet with an unknown connection id whose
seq_nr strictly follows ack_nr changes ack_nr (from 1 to 2) before the Reset
reply is produced, so handling it is not free of side effects on the socket
fields. -/
theorem claim_C3_counterexample :
    (handle_packet conn_state wrong_id_packet 99 0 0 0 0).1.ack_nr = 2 ∧
    conn_state.ack_nr = 1 ∧
    (handle_packet conn_state wrong_id_packet 99 0 0 0 0).1 ≠ conn_state ∧
    (handle_packet conn_state wrong_id_packet 99 0 0 0 0).2.2 =
      Except.ok (some (prepare_reply (handle_packet conn_state wrong_id_packet 99 0 0 0 0).1
        wrong_id_packet PacketType.Reset 0)) := by
  decide

/-- C3 (amended): for every packet that is not a Syn in state New and whose
connection id matches neither identifier, handle_packet performs the guarded
ack_nr advance (ack_nr moves to p.seq_nr exactly when p.seq_nr - ack_nr = 1
mod 2^16), transmits nothing, changes no other field (in particular the
remote window size is not refreshed and no dispatch runs), and returns a
Reset reply built from the post-advance state. -/
theorem claim_C3_amended (s : UtpSocket) (p : Packet) (src now rnd : Nat)
    (offT : Int) (inc : Nat)
    (h1 : ¬(s.state = SocketState.New ∧ p.ty = PacketType.Syn))
    (h2 : p.connection_id ≠ s.sender_connection_id)
    (h3 : p.connection_id ≠ s.receiver_connection_id) :
    handle_packet s p src now rnd offT inc =
      (ack_advance s p, [],
       Except.ok (some (prepare_reply (ack_advance s p) p PacketType.Reset now))) := by
  have hg : ¬((ack_advance s p).state = SocketState.New ∧ p.ty = PacketType.Syn) ∧
      ¬(p.connection_id = (ack_advance s p).sender_connection_id ∨
        p.connection_id = (ack_advance s p).receiver_connection_id) := by
    constructor
    · rw [ack_advance_state]
      exact h1
    · rw [ack_advance_sender, ack_advance_receiver]
      rintro (hx | hx)
      · exact h2 hx
      · exact h3 hx
  simp only [handle_packet]
  rw [if_pos hg]

/-- C3, witness for the amended theorem at the reachable connected state. -/
theorem claim_C3_witness :
    handle_packet conn_state wrong_id_packet 99 0 0 0 0 =
      (ack_advance conn_state wrong_id_packet, [],
       Except.ok (some (prepare_reply (ack_advance conn_state wrong_id_packet)
         wrong_id_packet PacketType.Reset 0))) :=
  claim_C3_amended conn_state wrong_id_packet 99 0 0 0 0 (by decide) (by decide) (by decide)

/-- C4, counterexample: a Syn received in state New sets ack_nr to the Syn
seq_nr unconditionally: with ack_nr 0 and a Syn carrying seq_nr 100, ack_nr
becomes 100 although 100 - 0 is not 1 mod 2^16, so ack_nr changed and not to
its predecessor plus one. -/
theorem claim_C4_counterexample :
    (handle_packet (bind_state 0 10) syn_packet_100 99 0 42 0 0).1.ack_nr = 100 ∧
    ¬ wsub16 syn_packet_100.seq_nr (bind_state 0 10).ack_nr = 1 ∧
    (handle_packet (bind_state 0 10) syn_packet_100 99 0 42 0 0).1.ack_nr ≠
      (bind_state 0 10).ack_nr ∧
    (handle_packet (bind_state 0 10) syn_packet_100 99 0 42 0 0).1.ack_nr ≠
      ((bind_state 0 10).ack_nr + 1) % U16_MOD := by
  decide

/-- C4 (amended): outside the two handshake branches (Syn in New and State in
SynSent, which set ack_nr to p.seq_nr unconditionally), handle_packet sets
ack_nr to p.seq_nr exactly when p.seq_nr - ack_nr = 1 under wrapping 16-bit
subtraction and leaves it unchanged otherwise; separately,
advance_incoming_buffer always sets ack_nr to the removed head sequence
number. -/
theorem claim_C4_amended (s : UtpSocket) (p : Packet) (src now rnd : Nat)
    (offT : Int) (inc : Nat)
    (h1 : ¬(s.state = SocketState.New ∧ p.ty = PacketType.Syn))
    (h2 : ¬(s.state = SocketState.SynSent ∧ p.ty = PacketType.State)) :
    (handle_packet s p src now rnd offT inc).1.ack_nr =
      (if wsub16 p.seq_nr s.ack_nr = 1 then p.seq_nr else s.ack_nr) ∧
    (∀ (t : UtpSocket) (pkt : Packet) (rest : List Packet), t.incoming_buffer = pkt :: rest →
      (advance_incoming_buffer t).1.ack_nr = pkt.seq_nr) := by
  refine ⟨?_, advance_incoming_buffer_head⟩
  simp only [handle_packet]
  split
  · exact ack_advance_ack s p
  · rw [show ({ ack_advance s p with remote_wnd_size := p.wnd_size } : UtpSocket).ack_nr =
        (ack_advance s p).ack_nr from rfl] at *
    rw [handle_packet_dispatch_ack_nr _ _ _ _ _ _ _ (by simpa using h1) (by simpa using h2)]
    exact ack_advance_ack s p

/-- C4, witness for the amended theorem: a Data packet on the connected
state. -/
theorem claim_C4_witness :
    (handle_packet conn_state data_packet_6 99 0 0 0 0).1.ack_nr =
      (if wsub16 data_packet_6.seq_nr conn_state.ack_nr = 1 then data_packet_6.seq_nr
       else conn_state.ack_nr) ∧
    (advance_incoming_buffer flush_cex_state).1.ack_nr = data_packet_6.seq_nr := by
  have h := claim_C4_amended conn_state data_packet_6 99 0 0 0 0 (by decide) (by decide)
  exact ⟨h.1, h.2 flush_cex_state data_packet_6 [data_packet_7] (by decide)⟩

/-- C5, counterexample: when pending_data fits the output buffer entirely,
flush_incoming_buffer returns right after advancing the head: on a state with
pending byte [9], ack_nr 5 and buffered packets 6 and 7, a flush with
capacity 10 reports one byte, yet afterwards the buffer is non-empty, its
head (seq_nr 7) equals ack_nr + 1 (no gap), and the output buffer is not
full — all three claimed disjuncts fail. -/
theorem claim_C5_counterexample :
    (flush_incoming_buffer flush_cex_state 10).1 = 1 ∧
    (flush_incoming_buffer flush_cex_state 10).2.incoming_buffer = [data_packet_7] ∧
    (flush_incoming_buffer flush_cex_state 10).2.ack_nr = 6 ∧
    data_packet_7.seq_nr = ((flush_incoming_buffer flush_cex_state 10).2.ack_nr + 1) % U16_MOD ∧
    ¬ (flush_incoming_buffer flush_cex_state 10).1 = 10 := by
  decide

/-- C5 (amended): when pending_data is empty on entry, after
flush_incoming_buffer either the output buffer is completely full, or the
reorder buffer is empty, or its head sequence number differs from both ack_nr
and ack_nr + 1 mod 2^16 (the loop guard fails). -/
theorem claim_C5_amended (s : UtpSocket) (cap : Nat) (hp : s.pending_data = []) :
    (flush_incoming_buffer s cap).1 = cap ∨
    (flush_incoming_buffer s cap).2.incoming_buffer = [] ∨
    ∃ hd tl, (flush_incoming_buffer s cap).2.incoming_buffer = hd :: tl ∧
      hd.seq_nr ≠ (flush_incoming_buffer s cap).2.ack_nr ∧
      hd.seq_nr ≠ ((flush_incoming_buffer s cap).2.ack_nr + 1) % U16_MOD := by
  unfold flush_incoming_buffer
  rw [if_pos hp]
  exact flush_loop_post cap s.incoming_buffer s.ack_nr s.pending_data [] (by simp)

/-- C5, witness for the amended theorem at the reachable connected state. -/
theorem claim_C5_witness :
    (flush_incoming_buffer conn_state 5).1 = 5 ∨
    (flush_incoming_buffer conn_state 5).2.incoming_buffer = [] ∨
    ∃ hd tl, (flush_incoming_buffer conn_state 5).2.incoming_buffer = hd :: tl ∧
      hd.seq_nr ≠ (flush_incoming_buffer conn_state 5).2.ack_nr ∧
      hd.seq_nr ≠ ((flush_incoming_buffer conn_state 5).2.ack_nr + 1) % U16_MOD :=
  claim_C5_amended conn_state 5 (by decide)

/-- C6, code bug: inserting a duplicate whose send-timestamp 50 is SMALLER
than the stored entry timestamp 100 still replaces the stored entry, although
the function doc comment and the spec require the larger-timestamp entry to
win.  The buffer afterwards holds exactly the newer arrival with the smaller
timestamp. -/
theorem claim_C6_bug :
    dup_packet_old.seq_nr = dup_packet_new.seq_nr ∧
    dup_packet_new.timestamp_microseconds < dup_packet_old.timestamp_microseconds ∧
    dup_state.incoming_buffer = [dup_packet_old] ∧
    (insert_into_buffer dup_state dup_packet_new).incoming_buffer = [dup_packet_new] := by
  decide

/-- C7, code bug: with ack_nr 1 and only packet 20 buffered, the claimed
bitmap position for packet 20 is byte (20-1-2)/8 = 2, bit (20-1-2) % 8 = 1,
but build_selective_ack produces [2,0,0,0]: the bit is set in byte 0 (which
the SACK reader of this library decodes as sequence number 4) and byte 2 is
zero, because only a single zero byte is appended when the byte index jumps
past the current length. -/
theorem claim_C7_bug :
    build_selective_ack sparse_gap_state = [2, 0, 0, 0] ∧
    (20 - 1 - 2) / 8 = 2 ∧ (20 - 1 - 2) % 8 = 1 ∧
    Nat.testBit ((build_selective_ack sparse_gap_state).getD 2 0) 1 = false ∧
    Nat.testBit ((build_selective_ack sparse_gap_state).getD 0 0) 1 = true := by
  decide

end Utp
